import Mathlib

/-!
Shallow embedding of the aggregate-annual-claims forecasting service
(`app.py`, the Flask JSON endpoint, and `ui.py`, the Streamlit dashboard).

Modelling conventions:
* A pandas DataFrame is a list of column names plus a list of rows; a row is
  a total function from column name to rational value (column access on a
  present column is what the code exercises; the `in columns` membership
  checks of the source are modelled through the `cols` list).
* The pre-fit scaler and predictor artifacts are opaque: a `Scaler` carries
  an optional `feature_names_in` list (the duck-typed
  `hasattr(scaler, "feature_names_in_")` check) and an arbitrary transform
  function; a `Model` carries an arbitrary predict function returning the
  first component of its prediction array.
* Numbers are rationals.  Python `int()` truncation and `round(x, 2)`
  (half-to-even at two decimals, on the exact value) are modelled explicitly.
-/

/-- A pandas row: total valuation of column names. -/
abbrev Row := String → ℚ

/-- A pandas DataFrame: its `.columns` and its rows. -/
structure DataFrame where
  cols : List String
  rows : List Row

/-- The pre-fit scaler artifact: the optional `feature_names_in_` attribute
and the opaque `transform` function applied to a single-row frame. -/
structure Scaler where
  feature_names_in : Option (List String)
  transform : List (String × ℚ) → List ℚ

/-- The pre-fit predictor artifact: `model.predict(...)[0]` as one opaque
function from the scaled row to the forecast value. -/
structure Model where
  predict : List ℚ → ℚ

/-- `base_feature_cols` from app.py lines 60-65 and ui.py lines 80-85. -/
def base_feature_cols : List String :=
  ["Subject employees",
   "Denied claims",
   "Fatality claims",
   "Rate: accepted disabling claims per 100 employees"]

/-- A JSON value as far as `int(input_data["year"])` can see it. -/
inductive JsonVal where
  | num (q : ℚ)
  | str (s : String)
  | bool (b : Bool)
  | null
  deriving DecidableEq

/-- Python `int()` on a numeric value: truncation toward zero. -/
def pyIntTrunc (q : ℚ) : ℤ := q.num.tdiv (q.den : ℤ)

/-- Digit-string to number, `none` when some character is not a digit. -/
def digitsToNat : List Char → Option ℕ
  | [] => none
  | l =>
    if l.all Char.isDigit then
      some (l.foldl (fun acc c => 10 * acc + (c.toNat - 48)) 0)
    else none

/-- Python `int(s)` on a string: optional sign then digits. -/
def pyStrToInt (s : String) : Option ℤ :=
  match s.toList with
  | '-' :: rest => (digitsToNat rest).map (fun n => -(n : ℤ))
  | '+' :: rest => (digitsToNat rest).map (fun n => (n : ℤ))
  | l => (digitsToNat l).map (fun n => (n : ℤ))

/-- Python `int(v)` on a JSON value: numbers truncate, digit strings parse,
booleans coerce, everything else raises (modelled as `Except.error` with the
interpreter's message). -/
def pyToInt : JsonVal → Except String ℤ
  | .num q => .ok (pyIntTrunc q)
  | .str s =>
    match pyStrToInt s with
    | some n => .ok n
    | none => .error s!"invalid literal for int() with base 10: {s}"
  | .bool b => .ok (if b then 1 else 0)
  | .null => .error "int() argument must be a string, a bytes-like object or a real number, not NoneType"

/-- `int(input_data["year"])` (app.py line 53): a missing key raises
`KeyError`, a present value goes through `int()`. -/
def pyGetYear (input : List (String × JsonVal)) : Except String ℤ :=
  match input.lookup "year" with
  | none => .error "KeyError: year"
  | some v => pyToInt v

/-- Round half to even to the nearest integer (Python `round` tie-breaking,
on the exact value), computed on the reduced numerator and denominator: `f`
is the floor, `rem / den` the fractional part, and ties (`2 * rem = den`)
go to the even neighbour. -/
def roundHalfEven (q : ℚ) : ℤ :=
  let f := q.num.fdiv (q.den : ℤ)
  let rem := q.num - f * (q.den : ℤ)
  if 2 * rem < (q.den : ℤ) then f
  else if (q.den : ℤ) < 2 * rem then f + 1
  else if f % 2 = 0 then f else f + 1

/-- Python `round(x, 2)` modelled on the exact rational value. -/
def pyRound2 (q : ℚ) : ℚ := (roundHalfEven (q * 100) : ℚ) / 100

/-- `historical_data[historical_data["Year"] == year_to_use]` restricted to
its rows (the column list is unchanged by row filtering); app.py line 54 and
ui.py line 72. -/
def rowsForYear (df : DataFrame) (year : ℤ) : List Row :=
  df.rows.filter (fun r => decide (r "Year" = (year : ℚ)))

/-- `lagged_feature_row` (app.py lines 76-78, ui.py lines 96-99): map each
base column to its value in the chosen row under the `_lag1` name, in base
order (Python dicts preserve insertion order). -/
def lagged_feature_row (r : Row) : List (String × ℚ) :=
  base_feature_cols.map (fun c => (c ++ "_lag1", r c))

/-- Feature preparation of app.py lines 59-97 once the year's first row `r`
is in hand: validate the base columns against `cols`, build the lagged row,
and reorder to the scaler's expected order when it exposes one.  Errors
carry the JSON message and the HTTP status. -/
def prepareFromRow (sc : Scaler) (cols : List String) (r : Row) :
    Except (String × ℕ) (List (String × ℚ)) :=
  let missing := base_feature_cols.filter (fun c => !cols.contains c)
  if missing ≠ [] then
    .error (s!"Missing required columns in data: {missing}", 500)
  else
    let feature_vector := lagged_feature_row r
    match sc.feature_names_in with
    | some expected_cols =>
      let missing_expected :=
        expected_cols.filter (fun c => !(feature_vector.map Prod.fst).contains c)
      if missing_expected ≠ [] then
        .error (s!"Prepared features missing expected columns: {missing_expected}", 500)
      else
        .ok (expected_cols.map (fun c => (c, (feature_vector.lookup c).getD 0)))
    | none => .ok feature_vector

/-- Feature preparation of app.py lines 54-97: select the year's rows, fail
with 400 when none match, otherwise work from the first matching row. -/
def prepareFeatures (sc : Scaler) (df : DataFrame) (year : ℤ) :
    Except (String × ℕ) (List (String × ℚ)) :=
  match rowsForYear df year with
  | [] => .error (s!"No data found for year {year}", 400)
  | r :: _ => prepareFromRow sc df.cols r

/-- `scaler.transform` then `model.predict(...)[0]` (app.py lines 99-106,
ui.py lines 115-120). -/
def score (sc : Scaler) (m : Model) (feature_vector : List (String × ℚ)) : ℚ :=
  m.predict (sc.transform feature_vector)

/-- Outcome of the `/predict` handler: a JSON success body
`{forecast_for_year, predicted_disabling_claims}` or a JSON error body with
its HTTP status. -/
inductive PredictResult where
  | ok (forecast_for_year : ℤ) (predicted_disabling_claims : ℚ)
  | err (msg : String) (status : ℕ)
  deriving DecidableEq

/-- The module-level artifact load of app.py lines 12-31: one `try` block
binds all three of model, scaler and historical data, and any exception
leaves all three `None`. -/
inductive AppState where
  | loaded (model : Model) (scaler : Scaler) (historical_data : DataFrame)
  | failed

/-- `loadResources` outcome to `AppState`: success binds the three
artifacts, failure leaves the degraded all-`None` state. -/
def loadResources : Except String (Model × Scaler × DataFrame) → AppState
  | .ok (m, sc, df) => .loaded m sc df
  | .error _ => .failed

/-- The `/predict` handler (app.py lines 36-117).  The `None` check comes
first; inside the `try`, a failed `int(input_data["year"])` is caught by the
generic handler and returned with status 400; then preparation, scaling,
prediction and response assembly. -/
def predict : AppState → List (String × JsonVal) → PredictResult
  | .failed, _ => .err "Model or scaler not loaded" 500
  | .loaded m sc df, input =>
    match pyGetYear input with
    | .error e => .err e 400
    | .ok year_to_use =>
      match prepareFeatures sc df year_to_use with
      | .error (msg, status) => .err msg status
      | .ok feature_vector =>
        .ok (year_to_use + 1) (pyRound2 (score sc m feature_vector))

/-- The `/` liveness endpoint (app.py lines 121-123). -/
def home : String := "WCF Forecasting API is running!"

/-- `historical_data[historical_data["Year"] == year_to_use]` as written in
ui.py line 72 (textually the same filter as the HTTP handler's). -/
def uiRowsForYear (df : DataFrame) (year : ℤ) : List Row :=
  df.rows.filter (fun r => decide (r "Year" = (year : ℚ)))

/-- `lagged_feature_row` as written in ui.py lines 96-99 (textually the same
comprehension as the HTTP handler's). -/
def ui_lagged_feature_row (r : Row) : List (String × ℚ) :=
  base_feature_cols.map (fun c => (c ++ "_lag1", r c))

/-- Feature preparation of ui.py lines 79-113 from the selected year's first
row: same validation ladder as the HTTP handler, errors rendered through
`st.error` (message only, no HTTP status). -/
def uiPrepareFromRow (sc : Scaler) (cols : List String) (r : Row) :
    Except String (List (String × ℚ)) :=
  let missing := base_feature_cols.filter (fun c => !cols.contains c)
  if missing ≠ [] then
    .error s!"Missing required columns in data: {missing}"
  else
    let feature_vector := ui_lagged_feature_row r
    match sc.feature_names_in with
    | some expected_cols =>
      let missing_expected :=
        expected_cols.filter (fun c => !(feature_vector.map Prod.fst).contains c)
      if missing_expected ≠ [] then
        .error s!"Prepared features missing expected columns: {missing_expected}"
      else
        .ok (expected_cols.map (fun c => (c, (feature_vector.lookup c).getD 0)))
    | none => .ok feature_vector

/-- Feature preparation of ui.py lines 72-113: select the year's rows, show
an error when none match, otherwise work from the first matching row. -/
def uiPrepareFeatures (sc : Scaler) (df : DataFrame) (year : ℤ) :
    Except String (List (String × ℚ)) :=
  match uiRowsForYear df year with
  | [] => .error s!"No data available for the year {year}. Please select another year."
  | r :: _ => uiPrepareFromRow sc df.cols r

/-- The numeric content of the dashboard's result display (ui.py lines
123-142): the header's forecast year, `int(forecast)`,
`int(previous_year_actual)` and the delta `int(forecast -
previous_year_actual)`; thousands-separator formatting is presentation
only. -/
structure UIDisplay where
  headerYear : ℤ
  predictedClaims : ℤ
  actualClaims : ℤ
  delta : ℤ
  deriving DecidableEq

/-- Outcome of pressing "Generate Forecast": an `st.error` banner or the
displayed result. -/
inductive UIResult where
  | err (msg : String)
  | ok (d : UIDisplay)
  deriving DecidableEq

/-- The "Generate Forecast" block of ui.py lines 69-142. -/
def uiGenerate (m : Model) (sc : Scaler) (df : DataFrame) (year : ℤ) : UIResult :=
  match uiRowsForYear df year with
  | [] => .err s!"No data available for the year {year}. Please select another year."
  | r :: _ =>
    match uiPrepareFromRow sc df.cols r with
    | .error msg => .err msg
    | .ok feature_vector =>
      let forecast := score sc m feature_vector
      let previous_year_actual := r "Accepted disabling claims"
      .ok ⟨year + 1, pyIntTrunc forecast, pyIntTrunc previous_year_actual,
           pyIntTrunc (forecast - previous_year_actual)⟩

/-! Concrete fixtures: a well-formed one-row dataset for the year 2022, a
scaler that exposes an expected column order, a scaler that does not, a
simple additive predictor, and a dataset missing the Rate base column. -/

/-- The 2022 observation of the worked scenario: every base column present. -/
def okRow : Row := fun c =>
  if c = "Year" then 2022
  else if c = "Subject employees" then 1000
  else if c = "Denied claims" then 50
  else if c = "Fatality claims" then 2
  else if c = "Rate: accepted disabling claims per 100 employees" then 7 / 2
  else if c = "Accepted disabling claims" then 40
  else 0

/-- A dataset holding exactly the 2022 observation. -/
def okDF : DataFrame :=
  ⟨["Year", "Subject employees", "Denied claims", "Fatality claims",
    "Rate: accepted disabling claims per 100 employees",
    "Accepted disabling claims"], [okRow]⟩

/-- A scaler exposing `feature_names_in_` in a non-base order; its transform
keeps the values. -/
def orderedScaler : Scaler :=
  ⟨some ["Rate: accepted disabling claims per 100 employees_lag1",
         "Subject employees_lag1",
         "Denied claims_lag1",
         "Fatality claims_lag1"],
   fun fv => fv.map Prod.snd⟩

/-- A scaler without `feature_names_in_`; its transform keeps the values. -/
def plainScaler : Scaler := ⟨none, fun fv => fv.map Prod.snd⟩

/-- A predictor summing its scaled inputs. -/
def sumModel : Model := ⟨fun l => l.foldl (· + ·) 0⟩

/-- A 2022 row for the dataset that lacks the Rate column. -/
def rowMissingRate : Row := fun c => if c = "Year" then 2022 else 1

/-- A dataset whose columns lack the Rate base column. -/
def dfMissingRate : DataFrame :=
  ⟨["Year", "Subject employees", "Denied claims", "Fatality claims"],
   [rowMissingRate]⟩

/-- The feature vector the service prepares from `okDF` for 2022 under
`orderedScaler` (the scaler's order, not the base order). -/
def okFV : List (String × ℚ) :=
  [("Rate: accepted disabling claims per 100 employees_lag1", 7 / 2),
   ("Subject employees_lag1", 1000),
   ("Denied claims_lag1", 50),
   ("Fatality claims_lag1", 2)]

/-- HTTP status of a handler outcome; a bare `jsonify(response)` success is
Flask's default 200. -/
def PredictResult.status : PredictResult → ℕ
  | .ok _ _ => 200
  | .err _ s => s

/-- Whether the handler outcome is the JSON error shape `{error: string}`. -/
def PredictResult.isErr : PredictResult → Bool
  | .ok _ _ => false
  | .err _ _ => true

/-! Helper lemmas shared by the claim theorems. -/

/-- The dashboard's row filter is the HTTP handler's row filter. -/
theorem uiRowsForYear_eq (df : DataFrame) (year : ℤ) :
    uiRowsForYear df year = rowsForYear df year := rfl

/-- Unfolding `predict` once the year has been extracted. -/
theorem predict_ok_year (m : Model) (sc : Scaler) (df : DataFrame)
    (input : List (String × JsonVal)) (year : ℤ)
    (hy : pyGetYear input = .ok year) :
    predict (.loaded m sc df) input =
      match prepareFeatures sc df year with
      | .error (msg, status) => .err msg status
      | .ok feature_vector => .ok (year + 1) (pyRound2 (score sc m feature_vector)) := by
  simp only [predict]
  rw [hy]

/-- Unfolding `predict` when year extraction fails. -/
theorem predict_bad_year (m : Model) (sc : Scaler) (df : DataFrame)
    (input : List (String × JsonVal)) (e : String)
    (hy : pyGetYear input = .error e) :
    predict (.loaded m sc df) input = .err e 400 := by
  simp only [predict]
  rw [hy]

/-- Unfolding `prepareFeatures` when no row matches the year. -/
theorem prepareFeatures_nil (sc : Scaler) (df : DataFrame) (year : ℤ)
    (h : rowsForYear df year = []) :
    prepareFeatures sc df year = .error (s!"No data found for year {year}", 400) := by
  unfold prepareFeatures
  rw [h]

/-- Unfolding `prepareFeatures` on the first matching row. -/
theorem prepareFeatures_row (sc : Scaler) (df : DataFrame) (year : ℤ)
    (r : Row) (rest : List Row) (h : rowsForYear df year = r :: rest) :
    prepareFeatures sc df year = prepareFromRow sc df.cols r := by
  unfold prepareFeatures
  rw [h]

/-- Unfolding `uiPrepareFeatures` when no row matches the year. -/
theorem uiPrepareFeatures_nil (sc : Scaler) (df : DataFrame) (year : ℤ)
    (h : rowsForYear df year = []) :
    uiPrepareFeatures sc df year =
      .error s!"No data available for the year {year}. Please select another year." := by
  unfold uiPrepareFeatures
  rw [uiRowsForYear_eq, h]

/-- Unfolding `uiPrepareFeatures` on the first matching row. -/
theorem uiPrepareFeatures_row (sc : Scaler) (df : DataFrame) (year : ℤ)
    (r : Row) (rest : List Row) (h : rowsForYear df year = r :: rest) :
    uiPrepareFeatures sc df year = uiPrepareFromRow sc df.cols r := by
  unfold uiPrepareFeatures
  rw [uiRowsForYear_eq, h]

/-- Unfolding `uiGenerate` when no row matches the year. -/
theorem uiGenerate_nil (m : Model) (sc : Scaler) (df : DataFrame) (year : ℤ)
    (h : rowsForYear df year = []) :
    uiGenerate m sc df year =
      .err s!"No data available for the year {year}. Please select another year." := by
  unfold uiGenerate
  rw [uiRowsForYear_eq, h]

/-- Unfolding `uiGenerate` on the first matching row. -/
theorem uiGenerate_row (m : Model) (sc : Scaler) (df : DataFrame) (year : ℤ)
    (r : Row) (rest : List Row) (h : rowsForYear df year = r :: rest) :
    uiGenerate m sc df year =
      match uiPrepareFromRow sc df.cols r with
      | .error msg => .err msg
      | .ok feature_vector =>
        .ok ⟨year + 1, pyIntTrunc (score sc m feature_vector),
             pyIntTrunc (r "Accepted disabling claims"),
             pyIntTrunc (score sc m feature_vector - r "Accepted disabling claims")⟩ := by
  unfold uiGenerate
  rw [uiRowsForYear_eq, h]

/-- The two front-ends' per-row preparation produces the same successful
feature vector and fails together. -/
theorem uiPrepareFromRow_toOption (sc : Scaler) (cols : List String) (r : Row) :
    (uiPrepareFromRow sc cols r).toOption = (prepareFromRow sc cols r).toOption := by
  unfold uiPrepareFromRow prepareFromRow
  rw [show ui_lagged_feature_row = lagged_feature_row from rfl]
  by_cases hm : base_feature_cols.filter (fun c => !cols.contains c) ≠ []
  · rw [if_pos hm, if_pos hm]
    rfl
  · rw [if_neg hm, if_neg hm]
    cases sc.feature_names_in with
    | none => rfl
    | some expected_cols =>
      by_cases hme : expected_cols.filter
          (fun c => !((lagged_feature_row r).map Prod.fst).contains c) ≠ []
      · simp only [if_pos hme]
        rfl
      · simp only [if_neg hme]
        rfl

/-- A successful HTTP-side preparation is a successful dashboard-side
preparation with the same vector. -/
theorem uiPrepareFromRow_ok_of (sc : Scaler) (cols : List String) (r : Row)
    (fv : List (String × ℚ)) (h : prepareFromRow sc cols r = .ok fv) :
    uiPrepareFromRow sc cols r = .ok fv := by
  have ht := uiPrepareFromRow_toOption sc cols r
  rw [h] at ht
  cases hui : uiPrepareFromRow sc cols r with
  | error msg => rw [hui] at ht; exact absurd ht (by simp [Except.toOption])
  | ok fv2 =>
    rw [hui] at ht
    simp only [Except.toOption] at ht
    rw [Option.some.injEq] at ht
    rw [ht]

/-- Success of `prepareFromRow` under a scaler exposing its columns. -/
theorem prepareFromRow_ok_some (sc : Scaler) (cols : List String) (r : Row)
    (fv : List (String × ℚ)) (expected_cols : List String)
    (hs : sc.feature_names_in = some expected_cols)
    (h : prepareFromRow sc cols r = .ok fv) :
    fv = expected_cols.map (fun c => (c, ((lagged_feature_row r).lookup c).getD 0)) := by
  simp only [prepareFromRow, hs] at h
  split at h
  · exact absurd h (by simp)
  · split at h
    · exact absurd h (by simp)
    · injection h with h2
      exact h2.symm

/-- Success of `prepareFromRow` under a scaler without exposed columns. -/
theorem prepareFromRow_ok_none (sc : Scaler) (cols : List String) (r : Row)
    (fv : List (String × ℚ))
    (hs : sc.feature_names_in = none)
    (h : prepareFromRow sc cols r = .ok fv) :
    fv = lagged_feature_row r := by
  simp only [prepareFromRow, hs] at h
  split at h
  · exact absurd h (by simp)
  · injection h with h2
    exact h2.symm

/-- Looking a key up in a list keyed by itself. -/
theorem lookup_map_self (g : String → ℚ) (l : List String) (k : String)
    (hk : k ∈ l) :
    (l.map (fun c => (c, g c))).lookup k = some (g k) := by
  induction l with
  | nil => cases hk
  | cons a t ih =>
    by_cases hka : k = a
    · subst hka
      simp [List.lookup]
    · have hk2 : k ∈ t := by
        rcases List.mem_cons.mp hk with h | h
        · exact absurd h hka
        · exact h
      simp only [List.map_cons, List.lookup_cons,
        show (k == a) = false from beq_eq_false_iff_ne.mpr hka]
      exact ih hk2

/-- A lagged feature holds the underlying row's base-column value. -/
theorem lagged_lookup (r : Row) (c : String) (hc : c ∈ base_feature_cols) :
    (lagged_feature_row r).lookup (c ++ "_lag1") = some (r c) := by
  simp only [base_feature_cols, List.mem_cons, List.not_mem_nil, or_false] at hc
  rcases hc with rfl | rfl | rfl | rfl <;> rfl

/-! The claims. -/

/-- Claim C1: whenever preparation succeeds, the prepared feature vector's
columns are exactly the scaler's expected columns in the scaler's order,
falling back to the fixed base-column order (lag-suffixed) when the scaler
exposes no expected-column list. -/
theorem C1_prepared_columns_follow_scaler (sc : Scaler) (df : DataFrame)
    (year : ℤ) (fv : List (String × ℚ))
    (h : prepareFeatures sc df year = .ok fv) :
    fv.map Prod.fst =
      sc.feature_names_in.getD (base_feature_cols.map (fun c => c ++ "_lag1")) := by
  cases hrows : rowsForYear df year with
  | nil =>
    rw [prepareFeatures_nil sc df year hrows] at h
    exact absurd h (by simp)
  | cons r rest =>
    rw [prepareFeatures_row sc df year r rest hrows] at h
    cases hfn : sc.feature_names_in with
    | some expected_cols =>
      have hfv := prepareFromRow_ok_some sc df.cols r fv expected_cols hfn h
      rw [hfv]
      simp [List.map_map, Function.comp_def]
    | none =>
      have hfv := prepareFromRow_ok_none sc df.cols r fv hfn h
      rw [hfv]
      simp [lagged_feature_row, List.map_map]

/-- Witness for C1 at the 2022 fixture with the order-exposing scaler. -/
theorem C1_prepared_columns_witness :
    okFV.map Prod.fst =
      orderedScaler.feature_names_in.getD
        (base_feature_cols.map (fun c => c ++ "_lag1")) :=
  C1_prepared_columns_follow_scaler orderedScaler okDF 2022 okFV (by rfl)

/-- Counterexample to C2 as stated: with the Rate base column absent from
the dataset, the handler's missing-columns failure carries HTTP status 500,
not the claimed 400. -/
theorem C2_missing_columns_counterexample :
    predict (.loaded sumModel orderedScaler dfMissingRate) [("year", .num 2022)] =
      .err "Missing required columns in data: [Rate: accepted disabling claims per 100 employees]"
        500 := by
  rfl

/-- Claim C2 amended: when the requested year's row exists but a base column
is absent, the request fails with the missing-columns JSON error at HTTP
status 500, and the outcome is independent of the scaler's transform and of
the predictor, so no scaling is attempted before the failure. -/
theorem C2_missing_columns_give_500 (sc : Scaler) (df : DataFrame)
    (input : List (String × JsonVal)) (year : ℤ) (r : Row) (rest : List Row)
    (m m2 : Model) (t t2 : List (String × ℚ) → List ℚ)
    (hy : pyGetYear input = .ok year)
    (hrows : rowsForYear df year = r :: rest)
    (hmiss : base_feature_cols.filter (fun c => !df.cols.contains c) ≠ []) :
    (predict (.loaded m ⟨sc.feature_names_in, t⟩ df) input).status = 500 ∧
    (predict (.loaded m ⟨sc.feature_names_in, t⟩ df) input).isErr = true ∧
    predict (.loaded m ⟨sc.feature_names_in, t⟩ df) input =
      predict (.loaded m2 ⟨sc.feature_names_in, t2⟩ df) input := by
  have key : ∀ (m3 : Model) (t3 : List (String × ℚ) → List ℚ),
      predict (.loaded m3 ⟨sc.feature_names_in, t3⟩ df) input =
        .err s!"Missing required columns in data: {base_feature_cols.filter (fun c => !df.cols.contains c)}"
          500 := by
    intro m3 t3
    rw [predict_ok_year m3 ⟨sc.feature_names_in, t3⟩ df input year hy,
      prepareFeatures_row _ df year r rest hrows]
    unfold prepareFromRow
    rw [if_pos hmiss]
  refine ⟨?_, ?_, ?_⟩
  · rw [key m t]
    rfl
  · rw [key m t]
    rfl
  · rw [key m t, key m2 t2]

/-- Witness for the amended C2 at the Rate-less fixture. -/
theorem C2_missing_columns_witness :
    (predict (.loaded sumModel ⟨orderedScaler.feature_names_in, fun fv => fv.map Prod.snd⟩
        dfMissingRate) [("year", .num 2022)]).status = 500 ∧
    (predict (.loaded sumModel ⟨orderedScaler.feature_names_in, fun fv => fv.map Prod.snd⟩
        dfMissingRate) [("year", .num 2022)]).isErr = true ∧
    predict (.loaded sumModel ⟨orderedScaler.feature_names_in, fun fv => fv.map Prod.snd⟩
        dfMissingRate) [("year", .num 2022)] =
      predict (.loaded ⟨fun _ => 1⟩ ⟨orderedScaler.feature_names_in, fun _ => []⟩
        dfMissingRate) [("year", .num 2022)] :=
  C2_missing_columns_give_500 orderedScaler dfMissingRate [("year", .num 2022)] 2022
    rowMissingRate [] sumModel ⟨fun _ => 1⟩ (fun fv => fv.map Prod.snd) (fun _ => [])
    (by rfl) (by rfl) (by decide)

/-- Claim C3: on the same dataset, year and scaler, the HTTP handler and the
dashboard handler prepare the same feature vector (and fail together). -/
theorem C3_frontends_prepare_equally (sc : Scaler) (df : DataFrame) (year : ℤ) :
    (prepareFeatures sc df year).toOption = (uiPrepareFeatures sc df year).toOption := by
  cases hrows : rowsForYear df year with
  | nil =>
    rw [prepareFeatures_nil sc df year hrows, uiPrepareFeatures_nil sc df year hrows]
    rfl
  | cons r rest =>
    rw [prepareFeatures_row sc df year r rest hrows,
      uiPrepareFeatures_row sc df year r rest hrows]
    exact (uiPrepareFromRow_toOption sc df.cols r).symm

/-- Claim C4: a year with no matching row makes the HTTP handler answer 400
with an error naming the year, and the dashboard show its error banner;
neither produces a feature vector or a forecast. -/
theorem C4_year_not_found_fails (m : Model) (sc : Scaler) (df : DataFrame)
    (input : List (String × JsonVal)) (year : ℤ)
    (hy : pyGetYear input = .ok year)
    (habs : rowsForYear df year = []) :
    predict (.loaded m sc df) input = .err s!"No data found for year {year}" 400 ∧
    uiGenerate m sc df year =
      .err s!"No data available for the year {year}. Please select another year." := by
  refine ⟨?_, uiGenerate_nil m sc df year habs⟩
  rw [predict_ok_year m sc df input year hy, prepareFeatures_nil sc df year habs]

/-- Witness for C4 at the absent year 1900. -/
theorem C4_year_not_found_witness :
    predict (.loaded sumModel orderedScaler okDF) [("year", JsonVal.num 1900)] =
      .err "No data found for year 1900" 400 ∧
    uiGenerate sumModel orderedScaler okDF 1900 =
      .err "No data available for the year 1900. Please select another year." :=
  C4_year_not_found_fails sumModel orderedScaler okDF [("year", JsonVal.num 1900)] 1900
    (by rfl) (by rfl)

/-- Claim C5: when the startup artifact load fails, every prediction request
answers 500 with the not-loaded error while the liveness endpoint still
returns its static string. -/
theorem C5_degraded_state_fails_deterministically (e : String)
    (input : List (String × JsonVal)) :
    predict (loadResources (.error e)) input = .err "Model or scaler not loaded" 500 ∧
    home = "WCF Forecasting API is running!" :=
  ⟨rfl, rfl⟩

/-- Claim C6: every successful prediction reports forecast year
`requested_year + 1`, in the HTTP response and in the dashboard header. -/
theorem C6_forecast_year_plus_one (m : Model) (sc : Scaler) (df : DataFrame)
    (input : List (String × JsonVal)) (year fy : ℤ) (val : ℚ) (d : UIDisplay)
    (hy : pyGetYear input = .ok year)
    (hp : predict (.loaded m sc df) input = .ok fy val)
    (hu : uiGenerate m sc df year = .ok d) :
    fy = year + 1 ∧ d.headerYear = year + 1 := by
  constructor
  · rw [predict_ok_year m sc df input year hy] at hp
    cases hprep : prepareFeatures sc df year with
    | error p =>
      obtain ⟨ms, st⟩ := p
      rw [hprep] at hp
      simp at hp
    | ok fv =>
      rw [hprep] at hp
      simp only [PredictResult.ok.injEq] at hp
      exact hp.1.symm
  · cases hrows : rowsForYear df year with
    | nil =>
      rw [uiGenerate_nil m sc df year hrows] at hu
      simp at hu
    | cons r rest =>
      rw [uiGenerate_row m sc df year r rest hrows] at hu
      cases hup : uiPrepareFromRow sc df.cols r with
      | error msg =>
        rw [hup] at hu
        simp at hu
      | ok fv =>
        rw [hup] at hu
        simp only [UIResult.ok.injEq] at hu
        rw [← hu]

/-- Witness for C6 at the 2022 fixture. -/
theorem C6_forecast_year_witness :
    (2022 + 1 : ℤ) = 2022 + 1 ∧
    (UIDisplay.mk (2022 + 1) (pyIntTrunc (score orderedScaler sumModel okFV))
      (pyIntTrunc (okRow "Accepted disabling claims"))
      (pyIntTrunc (score orderedScaler sumModel okFV -
        okRow "Accepted disabling claims"))).headerYear = 2022 + 1 :=
  C6_forecast_year_plus_one sumModel orderedScaler okDF [("year", JsonVal.num 2022)]
    2022 (2022 + 1) (pyRound2 (score orderedScaler sumModel okFV)) _
    (by rfl) (by rfl) (by rfl)

/-- Claim C7: preparation uses the first row matching the requested year,
and every lag-suffixed feature present in the result holds exactly that
row's value for its base column. -/
theorem C7_first_row_lag_values (sc : Scaler) (df : DataFrame) (year : ℤ)
    (r : Row) (rest : List Row) (fv : List (String × ℚ)) (c : String)
    (hrows : rowsForYear df year = r :: rest)
    (h : prepareFeatures sc df year = .ok fv)
    (h2 : uiPrepareFeatures sc df year = .ok fv)
    (hc : c ∈ base_feature_cols)
    (hk : (c ++ "_lag1") ∈ fv.map Prod.fst) :
    fv.lookup (c ++ "_lag1") = some (r c) := by
  rw [prepareFeatures_row sc df year r rest hrows] at h
  cases hfn : sc.feature_names_in with
  | some expected_cols =>
    have hfv := prepareFromRow_ok_some sc df.cols r fv expected_cols hfn h
    subst hfv
    have hk2 : (c ++ "_lag1") ∈ expected_cols := by
      simpa [List.map_map] using hk
    rw [lookup_map_self (fun k => ((lagged_feature_row r).lookup k).getD 0)
      expected_cols (c ++ "_lag1") hk2]
    rw [lagged_lookup r c hc]
    rfl
  | none =>
    have hfv := prepareFromRow_ok_none sc df.cols r fv hfn h
    subst hfv
    exact lagged_lookup r c hc

/-- Witness for C7 at the 2022 fixture, Subject employees feature. -/
theorem C7_first_row_lag_witness :
    okFV.lookup ("Subject employees" ++ "_lag1") = some (okRow "Subject employees") :=
  C7_first_row_lag_values orderedScaler okDF 2022 okRow [] okFV "Subject employees"
    (by rfl) (by rfl) (by rfl) (by decide) (by decide)

/-- Claim C8: with the artifacts fixed, the scale-then-predict pipeline is
deterministic: identical feature vectors give identical forecasts. -/
theorem C8_score_deterministic (sc : Scaler) (m : Model)
    (v1 v2 : List (String × ℚ)) (h : v1 = v2) :
    score sc m v1 = score sc m v2 := by
  rw [h]

/-- Witness for C8 at the 2022 fixture vector. -/
theorem C8_score_witness :
    score orderedScaler sumModel okFV = score orderedScaler sumModel okFV :=
  C8_score_deterministic orderedScaler sumModel okFV okFV rfl

/-- Claim C9: a request body without a "year" key, or whose year value is
not convertible to an integer, gets a 400 JSON error from the handler; the
exception is caught, never escaping. -/
theorem C9_bad_year_input_400 (m : Model) (sc : Scaler) (df : DataFrame)
    (input : List (String × JsonVal))
    (hbad : input.lookup "year" = none ∨
      ∃ v e, input.lookup "year" = some v ∧ pyToInt v = .error e) :
    (predict (.loaded m sc df) input).status = 400 ∧
    (predict (.loaded m sc df) input).isErr = true := by
  have herr : ∃ e, pyGetYear input = .error e := by
    unfold pyGetYear
    rcases hbad with hnone | ⟨v, e, hv, he⟩
    · rw [hnone]
      exact ⟨_, rfl⟩
    · rw [hv]
      exact ⟨e, he⟩
  obtain ⟨e, he⟩ := herr
  rw [predict_bad_year m sc df input e he]
  exact ⟨rfl, rfl⟩

/-- Witness for C9 with a non-numeric year string. -/
theorem C9_bad_year_witness :
    (predict (.loaded sumModel orderedScaler okDF) [("year", JsonVal.str "abc")]).status = 400 ∧
    (predict (.loaded sumModel orderedScaler okDF) [("year", JsonVal.str "abc")]).isErr = true :=
  C9_bad_year_input_400 sumModel orderedScaler okDF [("year", JsonVal.str "abc")]
    (Or.inr ⟨JsonVal.str "abc", "invalid literal for int() with base 10: abc", rfl, rfl⟩)

/-- Claim C10: for one raw forecast the HTTP response reports the value
rounded to two decimals while the dashboard reports it truncated to an
integer and uses the truncated difference from the actual as its delta; the
two reporting rules disagree (witnessed at five halves). -/
theorem C10_round_vs_truncate (m : Model) (sc : Scaler) (df : DataFrame)
    (input : List (String × JsonVal)) (year : ℤ) (r : Row) (rest : List Row)
    (fv : List (String × ℚ))
    (hy : pyGetYear input = .ok year)
    (hrows : rowsForYear df year = r :: rest)
    (h : prepareFeatures sc df year = .ok fv) :
    predict (.loaded m sc df) input = .ok (year + 1) (pyRound2 (score sc m fv)) ∧
    uiGenerate m sc df year =
      .ok ⟨year + 1, pyIntTrunc (score sc m fv),
           pyIntTrunc (r "Accepted disabling claims"),
           pyIntTrunc (score sc m fv - r "Accepted disabling claims")⟩ ∧
    pyRound2 (mkRat 5 2) ≠ ((pyIntTrunc (mkRat 5 2) : ℤ) : ℚ) := by
  refine ⟨?_, ?_, ?_⟩
  · rw [predict_ok_year m sc df input year hy, h]
  · have hfrom : prepareFromRow sc df.cols r = .ok fv := by
      rw [← prepareFeatures_row sc df year r rest hrows]
      exact h
    have hui := uiPrepareFromRow_ok_of sc df.cols r fv hfrom
    rw [uiGenerate_row m sc df year r rest hrows, hui]
  · have htr : pyIntTrunc (mkRat 5 2) = 2 := by decide
    have hq : (mkRat 5 2 : ℚ) = 5 / 2 := by
      rw [Rat.mkRat_eq_div]
      norm_num
    have hmul : (5 / 2 : ℚ) * 100 = 250 := by norm_num
    have hround : roundHalfEven (250 : ℚ) = 250 := by decide
    rw [htr]
    unfold pyRound2
    rw [hq, hmul, hround]
    norm_num

/-- Witness for C10 at the 2022 fixture. -/
theorem C10_round_vs_truncate_witness :
    predict (.loaded sumModel orderedScaler okDF) [("year", JsonVal.num 2022)] =
      .ok (2022 + 1) (pyRound2 (score orderedScaler sumModel okFV)) ∧
    uiGenerate sumModel orderedScaler okDF 2022 =
      .ok ⟨2022 + 1, pyIntTrunc (score orderedScaler sumModel okFV),
           pyIntTrunc (okRow "Accepted disabling claims"),
           pyIntTrunc (score orderedScaler sumModel okFV -
             okRow "Accepted disabling claims")⟩ ∧
    pyRound2 (mkRat 5 2) ≠ ((pyIntTrunc (mkRat 5 2) : ℤ) : ℚ) :=
  C10_round_vs_truncate sumModel orderedScaler okDF [("year", JsonVal.num 2022)] 2022
    okRow [] okFV (by rfl) (by rfl) (by rfl)
